import Mathlib

/-!
Shallow embedding of the McStasScript repository fragments relevant to the
specification: the search helpers of mcstasscript/interface/functions.py and
the instrument model exercised by mcstasscript/tests/test_Instr.py.

Python conventions used by the embedding:
  - A value that may fail to be a list is modelled by the PyInput sum type.
  - An exception is modelled by the error branch of Except; the exception
    class and message are carried by PyError.
  - Python object identity is modelled by structural value identity: each
    list position holds an independent record, and mutating the object held
    at a position is modelled by replacing the record at that position.
-/

/-- Metadata attached to a dataset; only the filename field is consulted by
the search helpers. -/
structure McStasMetadata where
  filename : String
  deriving DecidableEq

/-- A dataset as seen by name_search and name_plot_options.  The flag
isMcStasData records whether the Python expression type(obj) == McStasData is
true for the object; applied_options records, in call order, the kwargs blobs
passed to set_plot_options on the object. -/
structure McStasData where
  isMcStasData : Bool
  name : String
  metadata : McStasMetadata
  applied_options : List String
  deriving DecidableEq

/-- Python exceptions distinguished by the claims.  The inputError
constructor exists so that statements can compare against the InputError the
specification mentions; see name_search below for why the code never
produces it. -/
inductive PyError where
  | nameError (msg : String)
  | indexError (msg : String)
  | inputError (msg : String)
  deriving DecidableEq

/-- The data_list argument of name_search: either a Python list of datasets
or some non-list value. -/
inductive PyInput where
  | pyList (xs : List McStasData)
  | nonList
  deriving DecidableEq

/-- Return value of name_search: a single dataset when exactly one is
collected, otherwise the list of collected datasets. -/
inductive SearchResult where
  | single (d : McStasData)
  | several (ds : List McStasData)
  deriving DecidableEq

/-- Lines 36-39 of functions.py: the for loop appending to list_result every
element whose name attribute equals name, in list order. -/
def search_by_name (name : String) (data_list : List McStasData) :
    List McStasData :=
  data_list.foldl (fun acc check => if check.name = name then acc ++ [check] else acc) []

/-- Lines 42-45 of functions.py: the fallback for loop appending every
element whose metadata.filename equals name, in list order. -/
def search_by_filename (name : String) (data_list : List McStasData) :
    List McStasData :=
  data_list.foldl
    (fun acc check => if check.metadata.filename = name then acc ++ [check] else acc) []

/-- Lines 35-55 of functions.py: the search itself, reached once the two
validation checks have passed.  Searches by dataset name; only when that
collects nothing searches by metadata filename; raises NameError when both
collect nothing; returns the single element itself, or the list of the
collected elements. -/
def search_core (name : String) (data_list : List McStasData) :
    Except PyError SearchResult :=
  let list_result := search_by_name name data_list
  let list_result :=
    if list_result.length = 0 then search_by_filename name data_list else list_result
  match list_result with
  | [] =>
      Except.error (PyError.nameError ("No dataset with name: \"" ++ name ++ "\" found."))
  | [d] => Except.ok (SearchResult.single d)
  | ds => Except.ok (SearchResult.several ds)

/-- Lines 27-55 of functions.py.  The two raise statements on lines 28 and 32
read the name InputError, which is neither defined nor imported anywhere in
functions.py, so evaluating either raise statement itself raises
NameError; the InputError the code names is never constructed.  For an empty
list the subscript data_list[0] on line 31 raises IndexError before any
other check.  The type check on line 31 inspects only data_list[0]. -/
def name_search (name : String) (data_list : PyInput) : Except PyError SearchResult :=
  match data_list with
  | PyInput.nonList =>
      Except.error (PyError.nameError "name InputError is not defined")
  | PyInput.pyList [] =>
      Except.error (PyError.indexError "list index out of range")
  | PyInput.pyList (x :: rest) =>
      if x.isMcStasData = false then
        Except.error (PyError.nameError "name InputError is not defined")
      else
        search_core name (x :: rest)

/-- Modelled from the spec: McStasData.set_plot_options lives in
mcstasscript/data/data.py, which is not part of the sources; per the spec it
only stores the given plotting options on the dataset.  The embedding
records each call together with its kwargs blob. -/
def set_plot_options (kwargs : String) (d : McStasData) : McStasData :=
  { d with applied_options := d.applied_options ++ [kwargs] }

/-- Lines 58-83 of functions.py.  name_plot_options runs name_search and
calls set_plot_options on the returned object, or on every object of the
returned list.  The objects returned by name_search alias entries of
data_list, so mutating them mutates exactly the entries that name_search
collected: the entries matching by name when any does, otherwise the entries
matching by filename. -/
def name_plot_options (name kwargs : String) (data_list : List McStasData) :
    Except PyError (List McStasData) :=
  match name_search name (PyInput.pyList data_list) with
  | Except.error e => Except.error e
  | Except.ok _ =>
      if (search_by_name name data_list).length = 0 then
        Except.ok (data_list.map
          (fun c => if c.metadata.filename = name then set_plot_options kwargs c else c))
      else
        Except.ok (data_list.map
          (fun c => if c.name = name then set_plot_options kwargs c else c))

/-- Specification-side characterisation of which datasets a search for name
touches: those whose name matches when at least one does, otherwise those
whose filename matches. -/
def matches_search (name : String) (data_list : List McStasData) (c : McStasData) : Bool :=
  if (data_list.filter (fun d => d.name = name)) = [] then
    c.metadata.filename = name
  else
    c.name = name

theorem foldl_append_filter {α : Type} (p : α → Bool) (xs acc : List α) :
    xs.foldl (fun a c => if p c then a ++ [c] else a) acc = acc ++ xs.filter p := by
  induction xs generalizing acc with
  | nil => simp
  | cons x xs ih =>
      cases hp : p x with
      | true => simp [List.foldl_cons, hp, ih, List.filter_cons]
      | false => simp [List.foldl_cons, hp, ih, List.filter_cons]

theorem search_by_name_eq_filter (name : String) (xs : List McStasData) :
    search_by_name name xs = xs.filter (fun c => c.name = name) := by
  simpa using foldl_append_filter (fun c => c.name = name) xs []

theorem search_by_filename_eq_filter (name : String) (xs : List McStasData) :
    search_by_filename name xs = xs.filter (fun c => c.metadata.filename = name) := by
  simpa using foldl_append_filter (fun c => c.metadata.filename = name) xs []

/-- A component instance held by an instrument.  Modelled from the spec:
the component class (mcstasscript/helper/mcstas_objects.py) is not part of
the sources; per the spec a component instance is a plain record with a
unique instance name, the component type name, the named parameters the
type declares, and the parameter values set so far. -/
structure Component where
  name : String
  component_name : String
  parameter_names : List String
  parameters : List (String × String)
  deriving DecidableEq

/-- An instrument.  Modelled from the spec: McStas_instr
(mcstasscript/interface/instr.py) is not part of the sources; per the spec
an instrument holds ordered lists of parameters, declared variables and
components, plus four free-text code sections. -/
structure Instrument where
  name : String
  parameter_list : List String
  declare_list : List String
  component_list : List Component
  declare_section : String
  initialize_section : String
  trace_section : String
  finally_section : String
  deriving DecidableEq

/-- Modelled from the spec: construction of a fresh instrument; the initial
content of the three appendable code sections is fixed by the unit tests of
test_Instr.py (lines 107-109, 149-151, 191-193). -/
def make_instrument (name : String) : Instrument :=
  { name := name
    parameter_list := []
    declare_list := []
    component_list := []
    declare_section := ""
    initialize_section := "// Start of initialize for generated " ++ name ++ "\n"
    trace_section := "// Start of trace section for generated " ++ name ++ "\n"
    finally_section := "// Start of finally for generated " ++ name ++ "\n" }

/-- Names of the components of an instrument, in component order. -/
def component_names (instr : Instrument) : List String :=
  instr.component_list.map Component.name

/-- Linear search for the component carrying the given instance name. -/
def find_component (instr : Instrument) (name : String) : Option Component :=
  instr.component_list.find? (fun c => c.name = name)

/-- Python list.insert semantics: insert a at position i (appending when i
is not less than the length). -/
def insert_at {α : Type} (i : Nat) (a : α) (l : List α) : List α :=
  l.take i ++ a :: l.drop i

/-- Modelled from the spec: a freshly added component of the given type; its
declared parameter names come from the component library lib (the parsed
component template files, whose reader is out of scope). -/
def new_component (lib : String → List String) (name component_name : String) :
    Component :=
  { name := name
    component_name := component_name
    parameter_names := lib component_name
    parameters := [] }

/-- Modelled from the spec: McStas_instr.add_component.  Raises a naming
error when the instance name is already used by a component of the
instrument; otherwise inserts the new component into the ordered component
list: at the index of the component named by the before keyword, just after
the index of the component named by the after keyword, or at the end when
neither keyword is given; a before or after keyword naming no existing
component raises a naming error. -/
def add_component (lib : String → List String) (instr : Instrument)
    (name component_name : String) (before afterKw : Option String) :
    Except PyError Instrument :=
  if (component_names instr).contains name then
    Except.error (PyError.nameError
      ("Component name " ++ name ++ " is already in use"))
  else
    let comp := new_component lib name component_name
    match before with
    | some ref =>
        match instr.component_list.findIdx? (fun c => c.name = ref) with
        | none =>
            Except.error (PyError.nameError
              ("Component named " ++ ref ++ " not found"))
        | some i =>
            Except.ok { instr with component_list := insert_at i comp instr.component_list }
    | none =>
        match afterKw with
        | some ref =>
            match instr.component_list.findIdx? (fun c => c.name = ref) with
            | none =>
                Except.error (PyError.nameError
                  ("Component named " ++ ref ++ " not found"))
            | some i =>
                Except.ok
                  { instr with component_list := insert_at (i + 1) comp instr.component_list }
        | none =>
            Except.ok { instr with component_list := instr.component_list ++ [comp] }

/-- Modelled from the spec: McStas_instr.get_component retrieves the
component with the given name by linear search and raises a naming error
when there is none. -/
def get_component (instr : Instrument) (name : String) : Except PyError Component :=
  match find_component instr name with
  | some c => Except.ok c
  | none =>
      Except.error (PyError.nameError
        ("No component named " ++ name ++ " in the instrument"))

/-- Modelled from the spec: setting parameter values on a component; a key
that is not among the declared parameter names of the component raises a
naming error. -/
def set_parameters (comp : Component) :
    List (String × String) → Except PyError Component
  | [] => Except.ok comp
  | (k, v) :: rest =>
      if comp.parameter_names.contains k then
        set_parameters { comp with parameters := comp.parameters ++ [(k, v)] } rest
      else
        Except.error (PyError.nameError
          ("Parameter " ++ k ++ " not found on the component"))

/-- Modelled from the spec: McStas_instr.set_component_parameter looks the
component up with get_component and passes the dictionary on to it; the
component raises a naming error on an unknown parameter name. -/
def set_component_parameter (instr : Instrument) (name : String)
    (pars : List (String × String)) : Except PyError Instrument :=
  match get_component instr name with
  | Except.error e => Except.error e
  | Except.ok comp =>
      match set_parameters comp pars with
      | Except.error e => Except.error e
      | Except.ok comp2 =>
          Except.ok
            { instr with component_list :=
                instr.component_list.map (fun c => if c.name = name then comp2 else c) }

/-- Modelled from the spec: McStas_instr.append_initialize appends the
string and a newline to the initialize section. -/
def append_initialize (s : String) (instr : Instrument) : Instrument :=
  { instr with initialize_section := instr.initialize_section ++ s ++ "\n" }

/-- Modelled from the spec: the variant without a trailing newline. -/
def append_initialize_no_new_line (s : String) (instr : Instrument) : Instrument :=
  { instr with initialize_section := instr.initialize_section ++ s }

/-- Modelled from the spec: McStas_instr.append_trace appends the string and
a newline to the trace section. -/
def append_trace (s : String) (instr : Instrument) : Instrument :=
  { instr with trace_section := instr.trace_section ++ s ++ "\n" }

/-- Modelled from the spec: the variant without a trailing newline. -/
def append_trace_no_new_line (s : String) (instr : Instrument) : Instrument :=
  { instr with trace_section := instr.trace_section ++ s }

/-- Modelled from the spec: McStas_instr.append_finally appends the string
and a newline to the finally section. -/
def append_finally (s : String) (instr : Instrument) : Instrument :=
  { instr with finally_section := instr.finally_section ++ s ++ "\n" }

/-- Modelled from the spec: the variant without a trailing newline. -/
def append_finally_no_new_line (s : String) (instr : Instrument) : Instrument :=
  { instr with finally_section := instr.finally_section ++ s }

/-- Public operations on an instrument, for stating reachability. -/
inductive Op where
  | opAddComponent (name component_name : String) (before afterKw : Option String)
  | opSetComponentParameter (name : String) (pars : List (String × String))
  | opAddParameter (p : String)
  | opAddDeclareVar (v : String)
  | opAppendInit (s : String)
  | opAppendInitNoNl (s : String)
  | opAppendTrace (s : String)
  | opAppendTraceNoNl (s : String)
  | opAppendFinally (s : String)
  | opAppendFinallyNoNl (s : String)

/-- One public operation applied to an instrument.  A raised exception
leaves the instrument as it was, since every check precedes the mutation. -/
def applyOp (lib : String → List String) (instr : Instrument) : Op → Instrument
  | Op.opAddComponent n cn b a =>
      match add_component lib instr n cn b a with
      | Except.ok instr2 => instr2
      | Except.error _ => instr
  | Op.opSetComponentParameter n pars =>
      match set_component_parameter instr n pars with
      | Except.ok instr2 => instr2
      | Except.error _ => instr
  | Op.opAddParameter p => { instr with parameter_list := instr.parameter_list ++ [p] }
  | Op.opAddDeclareVar v => { instr with declare_list := instr.declare_list ++ [v] }
  | Op.opAppendInit s => append_initialize s instr
  | Op.opAppendInitNoNl s => append_initialize_no_new_line s instr
  | Op.opAppendTrace s => append_trace s instr
  | Op.opAppendTraceNoNl s => append_trace_no_new_line s instr
  | Op.opAppendFinally s => append_finally s instr
  | Op.opAppendFinallyNoNl s => append_finally_no_new_line s instr

/-- The instrument state reached from a fresh instrument by a sequence of
public operations. -/
def run_ops (lib : String → List String) (name : String) (ops : List Op) : Instrument :=
  ops.foldl (applyOp lib) (make_instrument name)

/-- Modelled from the spec: the command line assembled by
McStas_instr.run_full_instrument and passed to the system, of the grammar
mcrun -c -n [count] --mpi=[n] -d [dir] [flags] [file] [param]=[value] ...
prefixed with the mcrun path. -/
def run_command (mcrun_path instr_file foldername : String) (mpi ncount : Nat)
    (custom_flags : String) (parameters : List (String × String)) : String :=
  mcrun_path ++ "/mcrun -c -n " ++ toString ncount ++ " --mpi=" ++ toString mpi
    ++ " -d " ++ foldername ++ " " ++ custom_flags ++ " " ++ instr_file
    ++ String.join (parameters.map (fun kv => " " ++ kv.1 ++ "=" ++ kv.2))

theorem search_core_of_filters (name : String) (xs : List McStasData) :
    search_core name xs =
      (match (if xs.filter (fun c => c.name = name) = [] then
                xs.filter (fun c => c.metadata.filename = name)
              else xs.filter (fun c => c.name = name)) with
       | [] =>
           Except.error (PyError.nameError
             ("No dataset with name: \"" ++ name ++ "\" found."))
       | [d] => Except.ok (SearchResult.single d)
       | ds => Except.ok (SearchResult.several ds)) := by
  unfold search_core
  rw [search_by_name_eq_filter, search_by_filename_eq_filter]
  rcases h : xs.filter (fun c => c.name = name) with _ | ⟨d, ds⟩
  · simp
  · simp [h]

/-- Claim C1: the claim states that a non-list data_list makes name_search
raise an InputError saying it needs a list of McStasData.  On the code the
raise statement on line 28 is reached, but the name InputError is undefined
in functions.py, so evaluating the raise statement itself fails with a
NameError; no InputError is ever raised.  This theorem records the
behaviour of the code at the failing input. -/
theorem C1_nonlist_input_behaviour :
    name_search "monitor" PyInput.nonList
      = Except.error (PyError.nameError "name InputError is not defined") := rfl

/-- Claim C2: for a non-empty list of McStasData instances in which no
element carries the requested name and no metadata filename equals it,
name_search raises a NameError whose message names the missing dataset. -/
theorem C2_no_match_raises_name_error (name : String) (xs : List McStasData)
    (hne : xs ≠ [])
    (hmc : ∀ c ∈ xs, c.isMcStasData = true)
    (hname : ∀ c ∈ xs, c.name ≠ name)
    (hfile : ∀ c ∈ xs, c.metadata.filename ≠ name) :
    name_search name (PyInput.pyList xs)
      = Except.error (PyError.nameError
          ("No dataset with name: \"" ++ name ++ "\" found.")) := by
  cases xs with
  | nil => exact absurd rfl hne
  | cons x rest =>
      have hx : x.isMcStasData = true := hmc x (by simp)
      have h1 : (x :: rest).filter (fun c => c.name = name) = [] :=
        List.filter_eq_nil_iff.mpr (fun c hc => by simpa using hname c hc)
      have h2 : (x :: rest).filter (fun c => c.metadata.filename = name) = [] :=
        List.filter_eq_nil_iff.mpr (fun c hc => by simpa using hfile c hc)
      rw [name_search, if_neg (by simp [hx]), search_core_of_filters, h1, h2]
      simp

theorem C2_no_match_raises_name_error_witness :
    name_search "x"
        (PyInput.pyList
          [{ isMcStasData := true
             name := "a"
             metadata := { filename := "f" }
             applied_options := [] }])
      = Except.error (PyError.nameError "No dataset with name: \"x\" found.") :=
  C2_no_match_raises_name_error "x" _ (by decide) (by decide) (by decide) (by decide)

/-- Claim C3: name_search collects, by linear scan in list order, the
elements whose name equals the requested name; only when that collects
nothing does it scan again by metadata filename; a single collected element
is returned itself, several are returned as a list in data_list order.  The
linear scans are stated through List.filter, which keeps exactly the
matching elements in list order. -/
theorem C3_search_scan_semantics (name : String) (xs : List McStasData)
    (hne : xs ≠ []) (hmc : ∀ c ∈ xs, c.isMcStasData = true) :
    name_search name (PyInput.pyList xs) =
      (match (if xs.filter (fun c => c.name = name) = [] then
                xs.filter (fun c => c.metadata.filename = name)
              else xs.filter (fun c => c.name = name)) with
       | [] =>
           Except.error (PyError.nameError
             ("No dataset with name: \"" ++ name ++ "\" found."))
       | [d] => Except.ok (SearchResult.single d)
       | ds => Except.ok (SearchResult.several ds)) := by
  cases xs with
  | nil => exact absurd rfl hne
  | cons x rest =>
      have hx : x.isMcStasData = true := hmc x (by simp)
      rw [name_search, if_neg (by simp [hx]), search_core_of_filters]

theorem C3_search_scan_semantics_witness :
    name_search "m"
        (PyInput.pyList
          [{ isMcStasData := true
             name := "m"
             metadata := { filename := "f1" }
             applied_options := [] },
           { isMcStasData := true
             name := "z"
             metadata := { filename := "m" }
             applied_options := [] },
           { isMcStasData := true
             name := "m"
             metadata := { filename := "f3" }
             applied_options := [] }])
      = Except.ok (SearchResult.several
          [{ isMcStasData := true
             name := "m"
             metadata := { filename := "f1" }
             applied_options := [] },
           { isMcStasData := true
             name := "m"
             metadata := { filename := "f3" }
             applied_options := [] }]) :=
  C3_search_scan_semantics "m" _ (by decide) (by decide)

/-- Claim C9: the input validation of name_search inspects only the first
element: the empty list fails with an IndexError on the subscript
data_list[0] rather than with the documented input or naming error, and a
list whose first element is a McStasData instance is searched even when a
later element is not one. -/
theorem C9_validation_first_element_only :
    (∀ name, name_search name (PyInput.pyList [])
        = Except.error (PyError.indexError "list index out of range"))
    ∧ (∀ (name : String) (x : McStasData) (rest : List McStasData),
        x.isMcStasData = true →
        name_search name (PyInput.pyList (x :: rest)) = search_core name (x :: rest))
    ∧ name_search "a"
        (PyInput.pyList
          [{ isMcStasData := true
             name := "a"
             metadata := { filename := "f" }
             applied_options := [] },
           { isMcStasData := false
             name := "b"
             metadata := { filename := "g" }
             applied_options := [] }])
      = Except.ok (SearchResult.single
          { isMcStasData := true
            name := "a"
            metadata := { filename := "f" }
            applied_options := [] }) := by
  refine ⟨fun name => rfl, fun name x rest hx => ?_, rfl⟩
  rw [name_search, if_neg (by simp [hx])]

theorem C9_validation_first_element_only_witness :
    name_search "q" (PyInput.pyList [])
      = Except.error (PyError.indexError "list index out of range")
    ∧ name_search "q"
        (PyInput.pyList
          [{ isMcStasData := true
             name := "q"
             metadata := { filename := "h" }
             applied_options := [] }])
      = search_core "q"
          [{ isMcStasData := true
             name := "q"
             metadata := { filename := "h" }
             applied_options := [] }] :=
  ⟨C9_validation_first_element_only.1 "q",
   C9_validation_first_element_only.2.1 "q" _ [] (by decide)⟩

theorem name_search_ok_of_match (name : String) (xs : List McStasData)
    (hne : xs ≠ []) (hmc : ∀ c ∈ xs, c.isMcStasData = true)
    (hmatch : ∃ c ∈ xs, matches_search name xs c = true) :
    ∃ r, name_search name (PyInput.pyList xs) = Except.ok r := by
  cases xs with
  | nil => exact absurd rfl hne
  | cons x rest =>
      have hx : x.isMcStasData = true := hmc x (by simp)
      rw [name_search, if_neg (by simp [hx]), search_core_of_filters]
      obtain ⟨c, hcmem, hcmatch⟩ := hmatch
      rcases hbn : (x :: rest).filter (fun d => d.name = name) with _ | ⟨d, ds⟩
      · have hcfile : c.metadata.filename = name := by
          have := hcmatch
          unfold matches_search at this
          rw [hbn] at this
          simpa using this
        have hmem2 : c ∈ (x :: rest).filter (fun d => d.metadata.filename = name) :=
          List.mem_filter.mpr ⟨hcmem, by simpa using hcfile⟩
        rcases hbf : (x :: rest).filter (fun d => d.metadata.filename = name)
          with _ | ⟨e, es⟩
        · rw [hbf] at hmem2; exact absurd hmem2 (List.not_mem_nil c)
        · rcases es with _ | ⟨e2, es2⟩
          · exact ⟨SearchResult.single e, by simp [hbn, hbf]⟩
          · exact ⟨SearchResult.several (e :: e2 :: es2), by simp [hbn, hbf]⟩
      · rcases ds with _ | ⟨d2, ds2⟩
        · exact ⟨SearchResult.single d, by simp [hbn]⟩
        · exact ⟨SearchResult.several (d :: d2 :: ds2), by simp [hbn]⟩

/-- Claim C10: when at least one dataset matches, name_plot_options succeeds
and applies set_plot_options exactly once to every matching dataset and not
at all to any other dataset; the positions and number of entries of
data_list are untouched (the result is a position-by-position map of the
input). -/
theorem C10_plot_options_touch_matching_only (name kwargs : String)
    (xs : List McStasData)
    (hne : xs ≠ [])
    (hmc : ∀ c ∈ xs, c.isMcStasData = true)
    (hmatch : ∃ c ∈ xs, matches_search name xs c = true) :
    name_plot_options name kwargs xs
      = Except.ok (xs.map (fun c =>
          if matches_search name xs c = true then set_plot_options kwargs c else c)) := by
  obtain ⟨r, hr⟩ := name_search_ok_of_match name xs hne hmc hmatch
  rw [name_plot_options, hr]
  rcases hbn : xs.filter (fun d => d.name = name) with _ | ⟨d, ds⟩
  · rw [if_pos (by simp [search_by_name_eq_filter, hbn])]
    simp [matches_search, hbn]
  · rw [if_neg (by simp [search_by_name_eq_filter, hbn])]
    simp [matches_search, hbn]

theorem C10_plot_options_touch_matching_only_witness :
    name_plot_options "m" "opt"
        [{ isMcStasData := true
           name := "m"
           metadata := { filename := "f" }
           applied_options := [] },
         { isMcStasData := true
           name := "z"
           metadata := { filename := "g" }
           applied_options := [] }]
      = Except.ok
          [{ isMcStasData := true
             name := "m"
             metadata := { filename := "f" }
             applied_options := ["opt"] },
           { isMcStasData := true
             name := "z"
             metadata := { filename := "g" }
             applied_options := [] }] :=
  C10_plot_options_touch_matching_only "m" "opt" _ (by decide) (by decide) (by decide)

theorem insert_at_perm {α : Type} (i : Nat) (a : α) (l : List α) :
    (insert_at i a l).Perm (a :: l) := by
  have h : (l.take i ++ a :: l.drop i).Perm (a :: (l.take i ++ l.drop i)) :=
    List.perm_middle
  rw [List.take_append_drop] at h
  exact h

theorem sublist_insert_at {α : Type} (i : Nat) (a : α) (l : List α) :
    l.Sublist (insert_at i a l) := by
  have h : (l.take i ++ l.drop i).Sublist (l.take i ++ a :: l.drop i) :=
    List.Sublist.append_left (List.sublist_cons_self a (l.drop i)) (l.take i)
  rw [List.take_append_drop] at h
  exact h

theorem map_insert_at {α β : Type} (f : α → β) (i : Nat) (a : α) (l : List α) :
    (insert_at i a l).map f = insert_at i (f a) (l.map f) := by
  simp [insert_at, List.map_take, List.map_drop]

theorem insert_at_length_self {α : Type} (a : α) (l : List α) :
    insert_at l.length a l = l ++ [a] := by
  simp [insert_at, List.take_length, List.drop_length]

theorem nodup_insert_at {α : Type} (i : Nat) (a : α) (l : List α)
    (hl : l.Nodup) (ha : a ∉ l) : (insert_at i a l).Nodup :=
  ((insert_at_perm i a l).symm).nodup (List.nodup_cons.mpr ⟨ha, hl⟩)

theorem insert_at_getElem_self {α : Type} (i : Nat) (a : α) (l : List α)
    (h : i ≤ l.length) : (insert_at i a l)[i]? = some a := by
  unfold insert_at
  rw [List.getElem?_append_right (by simp [List.length_take])]
  simp [List.length_take, Nat.min_eq_left h]

theorem insert_at_getElem_succ {α : Type} (i : Nat) (a : α) (l : List α)
    (h : i ≤ l.length) : (insert_at i a l)[i + 1]? = l[i]? := by
  unfold insert_at
  rw [List.getElem?_append_right (by simp [List.length_take])]
  have hlen : (l.take i).length = i := by simp [List.length_take, Nat.min_eq_left h]
  rw [hlen]
  simp [List.getElem?_drop]

theorem add_component_ok_shape (lib : String → List String) (instr : Instrument)
    (n cn : String) (b a : Option String) (instr2 : Instrument)
    (h : add_component lib instr n cn b a = Except.ok instr2) :
    (component_names instr).contains n = false
    ∧ instr2.name = instr.name
    ∧ instr2.parameter_list = instr.parameter_list
    ∧ instr2.declare_list = instr.declare_list
    ∧ ∃ i, instr2.component_list
        = insert_at i (new_component lib n cn) instr.component_list := by
  by_cases hc : (component_names instr).contains n = true
  · unfold add_component at h
    rw [if_pos hc] at h
    simp at h
  · have hc2 : (component_names instr).contains n = false := by simpa using hc
    refine ⟨hc2, ?_⟩
    unfold add_component at h
    rw [if_neg (by rw [hc2]; simp)] at h
    cases b with
    | some ref =>
        cases hf : instr.component_list.findIdx? (fun c => c.name = ref) with
        | none => simp [hf] at h
        | some i =>
            simp only [hf] at h
            simp at h
            rw [← h]
            exact ⟨rfl, rfl, rfl, i, rfl⟩
    | none =>
        cases a with
        | some ref =>
            cases hf : instr.component_list.findIdx? (fun c => c.name = ref) with
            | none => simp [hf] at h
            | some i =>
                simp only [hf] at h
                simp at h
                rw [← h]
                exact ⟨rfl, rfl, rfl, i + 1, rfl⟩
        | none =>
            simp at h
            rw [← h]
            exact ⟨rfl, rfl, rfl, instr.component_list.length,
              (insert_at_length_self _ _).symm⟩

theorem get_component_ok (instr : Instrument) (n : String) (comp : Component)
    (h : get_component instr n = Except.ok comp) :
    find_component instr n = some comp ∧ comp.name = n := by
  unfold get_component at h
  cases hfc : find_component instr n with
  | none => rw [hfc] at h; simp at h
  | some c =>
      rw [hfc] at h
      simp at h
      subst h
      refine ⟨rfl, ?_⟩
      unfold find_component at hfc
      have hp := List.find?_some hfc
      simpa using hp

theorem set_parameters_fields (pars : List (String × String)) :
    ∀ comp comp2 : Component, set_parameters comp pars = Except.ok comp2 →
      comp2.name = comp.name ∧ comp2.parameter_names = comp.parameter_names := by
  induction pars with
  | nil =>
      intro comp comp2 h
      unfold set_parameters at h
      simp at h
      rw [← h]
      exact ⟨rfl, rfl⟩
  | cons kv rest ih =>
      intro comp comp2 h
      obtain ⟨k, v⟩ := kv
      unfold set_parameters at h
      by_cases hck : comp.parameter_names.contains k = true
      · rw [if_pos hck] at h
        exact ih { comp with parameters := comp.parameters ++ [(k, v)] } comp2 h
      · rw [if_neg hck] at h
        simp at h

theorem set_component_parameter_ok_names (instr : Instrument) (n : String)
    (pars : List (String × String)) (instr2 : Instrument)
    (h : set_component_parameter instr n pars = Except.ok instr2) :
    component_names instr2 = component_names instr := by
  unfold set_component_parameter at h
  cases hg : get_component instr n with
  | error e => rw [hg] at h; simp at h
  | ok comp =>
      rw [hg] at h
      simp only [Except.ok.injEq] at h
      cases hs : set_parameters comp pars with
      | error e => rw [hs] at h; simp at h
      | ok comp2 =>
          rw [hs] at h
          simp at h
          obtain ⟨hname2, _⟩ := set_parameters_fields pars comp comp2 hs
          obtain ⟨_, hcompn⟩ := get_component_ok instr n comp hg
          rw [← h]
          show (instr.component_list.map
              (fun c => if c.name = n then comp2 else c)).map Component.name
            = component_names instr
          rw [List.map_map]
          exact List.map_congr_left (fun c hc => by
            by_cases hcn : c.name = n
            · simp [hcn, hname2, hcompn]
            · simp [hcn])

theorem nodup_names_applyOp (lib : String → List String) (op : Op) (instr : Instrument)
    (h : (component_names instr).Nodup) :
    (component_names (applyOp lib instr op)).Nodup := by
  cases op with
  | opAddComponent n cn b a =>
      cases hres : add_component lib instr n cn b a with
      | error e => simpa [applyOp, hres] using h
      | ok instr2 =>
          obtain ⟨hc, _, _, _, i, hshape⟩ :=
            add_component_ok_shape lib instr n cn b a instr2 hres
          have hnames : component_names instr2 = insert_at i n (component_names instr) := by
            show instr2.component_list.map Component.name = _
            rw [hshape, map_insert_at]
            rfl
          have hmem : n ∉ component_names instr := by simpa using hc
          simp only [applyOp, hres]
          rw [hnames]
          exact nodup_insert_at i n _ h hmem
  | opSetComponentParameter n pars =>
      cases hres : set_component_parameter instr n pars with
      | error e => simpa [applyOp, hres] using h
      | ok instr2 =>
          have heq := set_component_parameter_ok_names instr n pars instr2 hres
          simp only [applyOp, hres]
          rw [heq]
          exact h
  | opAddParameter p => exact h
  | opAddDeclareVar v => exact h
  | opAppendInit s => exact h
  | opAppendInitNoNl s => exact h
  | opAppendTrace s => exact h
  | opAppendTraceNoNl s => exact h
  | opAppendFinally s => exact h
  | opAppendFinallyNoNl s => exact h

theorem nodup_names_foldl (lib : String → List String) (ops : List Op) :
    ∀ instr : Instrument, (component_names instr).Nodup →
      (component_names (ops.foldl (applyOp lib) instr)).Nodup := by
  induction ops with
  | nil => intro instr h; exact h
  | cons op rest ih =>
      intro instr h
      exact ih (applyOp lib instr op) (nodup_names_applyOp lib op instr h)

theorem nodup_names_run_ops (lib : String → List String) (iname : String)
    (ops : List Op) : (component_names (run_ops lib iname ops)).Nodup :=
  nodup_names_foldl lib ops (make_instrument iname) (by simp [component_names, make_instrument])

/-- Claim C4: in every instrument state reachable by the public operations
no two components share a name, and add_component called with a name already
present raises a naming error while the operation leaves the instrument, and
in particular its component list, unchanged. -/
theorem C4_component_names_unique (lib : String → List String) (iname : String)
    (ops : List Op) (n cn : String) (b a : Option String)
    (hdup : (component_names (run_ops lib iname ops)).contains n = true) :
    ((run_ops lib iname ops).component_list.map Component.name).Nodup
    ∧ (∃ msg, add_component lib (run_ops lib iname ops) n cn b a
        = Except.error (PyError.nameError msg))
    ∧ applyOp lib (run_ops lib iname ops) (Op.opAddComponent n cn b a)
        = run_ops lib iname ops := by
  refine ⟨nodup_names_run_ops lib iname ops,
    ⟨"Component name " ++ n ++ " is already in use", ?_⟩, ?_⟩
  · unfold add_component
    rw [if_pos hdup]
  · have herr : add_component lib (run_ops lib iname ops) n cn b a
        = Except.error (PyError.nameError
            ("Component name " ++ n ++ " is already in use")) := by
      unfold add_component
      rw [if_pos hdup]
    simp [applyOp, herr]

theorem C4_component_names_unique_witness :
    (component_names
        (run_ops (fun _ => []) "test_instrument"
          [Op.opAddComponent "first_component" "test_for_reading" none none])).contains
        "first_component" = true
    ∧ (((run_ops (fun _ => []) "test_instrument"
          [Op.opAddComponent "first_component" "test_for_reading" none none]).component_list.map
            Component.name).Nodup
      ∧ (∃ msg, add_component (fun _ => [])
          (run_ops (fun _ => []) "test_instrument"
            [Op.opAddComponent "first_component" "test_for_reading" none none])
          "first_component" "test_for_reading" none none
          = Except.error (PyError.nameError msg))
      ∧ applyOp (fun _ => [])
          (run_ops (fun _ => []) "test_instrument"
            [Op.opAddComponent "first_component" "test_for_reading" none none])
          (Op.opAddComponent "first_component" "test_for_reading" none none)
          = run_ops (fun _ => []) "test_instrument"
              [Op.opAddComponent "first_component" "test_for_reading" none none]) :=
  ⟨by decide,
   C4_component_names_unique (fun _ => []) "test_instrument"
     [Op.opAddComponent "first_component" "test_for_reading" none none]
     "first_component" "test_for_reading" none none (by decide)⟩

theorem findIdx?_none_of_find?_none {α : Type} (p : α → Bool) (l : List α)
    (h : l.find? p = none) : l.findIdx? p = none :=
  List.findIdx?_eq_none_iff.mpr (fun x hx => by
    have hnp := List.find?_eq_none.mp h x hx
    simpa using hnp)

theorem set_parameters_error_of_bad_key (k v : String) (pars : List (String × String)) :
    ∀ comp : Component, (k, v) ∈ pars → comp.parameter_names.contains k = false →
      ∃ m, set_parameters comp pars = Except.error (PyError.nameError m) := by
  induction pars with
  | nil => intro comp hmem hk; exact absurd hmem (List.not_mem_nil _)
  | cons kv rest ih =>
      intro comp hmem hk
      obtain ⟨k0, v0⟩ := kv
      by_cases hck : comp.parameter_names.contains k0 = true
      · rcases List.mem_cons.mp hmem with he | hmem2
        · exfalso
          cases he
          rw [hck] at hk
          simp at hk
        · obtain ⟨m, hm⟩ :=
            ih { comp with parameters := comp.parameters ++ [(k0, v0)] } hmem2 hk
          exact ⟨m, by unfold set_parameters; rw [if_pos hck]; exact hm⟩
      · exact ⟨"Parameter " ++ k0 ++ " not found on the component",
          by unfold set_parameters; rw [if_neg hck]⟩

/-- Claim C5: get_component, set_component_parameter and add_component with
a before or after keyword raise a NameError when no component with the
referenced name exists, and set_component_parameter raises a NameError when
a referenced parameter does not exist on the component. -/
theorem C5_missing_reference_raises (lib : String → List String)
    (instr : Instrument) (x y n cn k v : String) (pars : List (String × String)) :
    (find_component instr x = none →
      (∃ m, get_component instr x = Except.error (PyError.nameError m))
      ∧ (∃ m, set_component_parameter instr x pars
          = Except.error (PyError.nameError m))
      ∧ (∃ m, add_component lib instr n cn (some x) none
          = Except.error (PyError.nameError m))
      ∧ (∃ m, add_component lib instr n cn none (some x)
          = Except.error (PyError.nameError m)))
    ∧ (∀ comp : Component, get_component instr y = Except.ok comp →
        comp.parameter_names.contains k = false → (k, v) ∈ pars →
        ∃ m, set_component_parameter instr y pars
          = Except.error (PyError.nameError m)) := by
  constructor
  · intro hmiss
    have hge : get_component instr x
        = Except.error (PyError.nameError
            ("No component named " ++ x ++ " in the instrument")) := by
      unfold get_component
      rw [hmiss]
    have hfidx : instr.component_list.findIdx? (fun c => c.name = x) = none := by
      apply findIdx?_none_of_find?_none
      unfold find_component at hmiss
      exact hmiss
    refine ⟨⟨_, hge⟩,
      ⟨"No component named " ++ x ++ " in the instrument", ?_⟩, ?_, ?_⟩
    · unfold set_component_parameter
      rw [hge]
    · by_cases hc : (component_names instr).contains n = true
      · exact ⟨"Component name " ++ n ++ " is already in use",
          by unfold add_component; rw [if_pos hc]⟩
      · have hc2 : (component_names instr).contains n = false := by simpa using hc
        exact ⟨"Component named " ++ x ++ " not found", by
          unfold add_component
          rw [if_neg (by rw [hc2]; simp)]
          simp only [hfidx]⟩
    · by_cases hc : (component_names instr).contains n = true
      · exact ⟨"Component name " ++ n ++ " is already in use",
          by unfold add_component; rw [if_pos hc]⟩
      · have hc2 : (component_names instr).contains n = false := by simpa using hc
        exact ⟨"Component named " ++ x ++ " not found", by
          unfold add_component
          rw [if_neg (by rw [hc2]; simp)]
          simp only [hfidx]⟩
  · intro comp hok hk hmem
    obtain ⟨m, hm⟩ := set_parameters_error_of_bad_key k v pars comp hmem hk
    refine ⟨m, ?_⟩
    unfold set_component_parameter
    rw [hok]
    simp [hm]

theorem insert_at_getElem_lt {α : Type} (j m : Nat) (a : α) (l : List α)
    (hm : m < j) (hj : j ≤ l.length) : (insert_at j a l)[m]? = l[m]? := by
  unfold insert_at
  rw [List.getElem?_append]
  rw [if_pos (by
    rw [List.length_take]
    exact Nat.lt_min.mpr ⟨hm, lt_of_lt_of_le hm hj⟩)]
  rw [List.getElem?_take, if_pos hm]

theorem findIdx?_some_component_name (l : List Component) (x : String) (i : Nat)
    (h : l.findIdx? (fun c => c.name = x) = some i) :
    ∃ c, l[i]? = some c ∧ c.name = x := by
  obtain ⟨hlt, hidx⟩ := List.findIdx?_eq_some_iff_findIdx_eq.mp h
  subst hidx
  refine ⟨l[List.findIdx (fun c => decide (c.name = x)) l], List.getElem?_eq_getElem hlt, ?_⟩
  have hp := @List.findIdx_getElem _ (fun c => decide (c.name = x)) l hlt
  simpa using hp

/-- Claim C6: the component list is ordered and add_component inserts at an
index: with neither keyword the new component is appended at the end, with
before equal to the name of the component at index i it is inserted at i
(the new component sits at i, the referenced one right after it), with
after it is inserted at i + 1 (the referenced component stays at i, the new
one sits at i + 1), and in every case the old component list is a sublist
of the new one, so all pre-existing components keep their relative order. -/
theorem C6_insertion_positions (lib : String → List String) (instr : Instrument)
    (n cn x : String) (i : Nat)
    (hfresh : (component_names instr).contains n = false) :
    (add_component lib instr n cn none none
      = Except.ok { instr with
          component_list := instr.component_list ++ [new_component lib n cn] })
    ∧ instr.component_list.Sublist
        (instr.component_list ++ [new_component lib n cn])
    ∧ (instr.component_list.findIdx? (fun c => c.name = x) = some i →
        (add_component lib instr n cn (some x) none
          = Except.ok { instr with
              component_list := insert_at i (new_component lib n cn) instr.component_list })
        ∧ (add_component lib instr n cn none (some x)
          = Except.ok { instr with
              component_list :=
                insert_at (i + 1) (new_component lib n cn) instr.component_list })
        ∧ (∃ c, instr.component_list[i]? = some c ∧ c.name = x)
        ∧ (insert_at i (new_component lib n cn) instr.component_list)[i]?
            = some (new_component lib n cn)
        ∧ (insert_at i (new_component lib n cn) instr.component_list)[i + 1]?
            = instr.component_list[i]?
        ∧ (insert_at (i + 1) (new_component lib n cn) instr.component_list)[i]?
            = instr.component_list[i]?
        ∧ (insert_at (i + 1) (new_component lib n cn) instr.component_list)[i + 1]?
            = some (new_component lib n cn)
        ∧ instr.component_list.Sublist
            (insert_at i (new_component lib n cn) instr.component_list)
        ∧ instr.component_list.Sublist
            (insert_at (i + 1) (new_component lib n cn) instr.component_list)) := by
  have hif : ¬((component_names instr).contains n = true) := by rw [hfresh]; simp
  refine ⟨?_, List.sublist_append_left _ _, fun hfind => ?_⟩
  · unfold add_component
    rw [if_neg hif]
  · have hlt : i < instr.component_list.length :=
      (List.findIdx?_eq_some_iff_findIdx_eq.mp hfind).1
    have hile : i ≤ instr.component_list.length := le_of_lt hlt
    have hsle : i + 1 ≤ instr.component_list.length := Nat.succ_le_of_lt hlt
    refine ⟨?_, ?_, findIdx?_some_component_name _ x i hfind,
      insert_at_getElem_self i _ _ hile,
      insert_at_getElem_succ i _ _ hile,
      insert_at_getElem_lt (i + 1) i _ _ (Nat.lt_succ_self i) hsle,
      insert_at_getElem_self (i + 1) _ _ hsle,
      sublist_insert_at i _ _,
      sublist_insert_at (i + 1) _ _⟩
    · unfold add_component
      rw [if_neg hif]
      simp only [hfind]
    · unfold add_component
      rw [if_neg hif]
      simp only [hfind]

/-- Component library used by the concrete examples: the parameter names of
the test_for_reading component type of the test suite. -/
def demo_lib : String → List String :=
  fun cn => if cn = "test_for_reading" then ["radius", "dist", "gauss", "test_string"] else []

/-- The populated instrument of the test suite: three components of type
test_for_reading added in order. -/
def demo_instr : Instrument :=
  run_ops demo_lib "test_instrument"
    [Op.opAddComponent "first_component" "test_for_reading" none none,
     Op.opAddComponent "second_component" "test_for_reading" none none,
     Op.opAddComponent "third_component" "test_for_reading" none none]

theorem C5_missing_reference_raises_witness :
    ((∃ m, get_component demo_instr "nope" = Except.error (PyError.nameError m))
      ∧ (∃ m, set_component_parameter demo_instr "nope" [("bad", "1")]
          = Except.error (PyError.nameError m))
      ∧ (∃ m, add_component demo_lib demo_instr "test_component" "test_for_reading"
          (some "nope") none = Except.error (PyError.nameError m))
      ∧ (∃ m, add_component demo_lib demo_instr "test_component" "test_for_reading"
          none (some "nope") = Except.error (PyError.nameError m)))
    ∧ (∃ m, set_component_parameter demo_instr "second_component" [("bad", "1")]
        = Except.error (PyError.nameError m)) :=
  ⟨(C5_missing_reference_raises demo_lib demo_instr "nope" "second_component"
      "test_component" "test_for_reading" "bad" "1" [("bad", "1")]).1 (by decide),
   (C5_missing_reference_raises demo_lib demo_instr "nope" "second_component"
      "test_component" "test_for_reading" "bad" "1" [("bad", "1")]).2
     (new_component demo_lib "second_component" "test_for_reading")
     rfl (by decide) (by decide)⟩

theorem C6_insertion_positions_witness :
    (add_component demo_lib demo_instr "test_component" "test_for_reading" none none
      = Except.ok { demo_instr with
          component_list := demo_instr.component_list
            ++ [new_component demo_lib "test_component" "test_for_reading"] })
    ∧ demo_instr.component_list.Sublist
        (demo_instr.component_list
          ++ [new_component demo_lib "test_component" "test_for_reading"])
    ∧ ((add_component demo_lib demo_instr "test_component" "test_for_reading"
          (some "first_component") none
        = Except.ok { demo_instr with
            component_list :=
              insert_at 0 (new_component demo_lib "test_component" "test_for_reading")
                demo_instr.component_list })
      ∧ (add_component demo_lib demo_instr "test_component" "test_for_reading"
          none (some "first_component")
        = Except.ok { demo_instr with
            component_list :=
              insert_at 1 (new_component demo_lib "test_component" "test_for_reading")
                demo_instr.component_list })
      ∧ (∃ c, demo_instr.component_list[0]? = some c ∧ c.name = "first_component")
      ∧ (insert_at 0 (new_component demo_lib "test_component" "test_for_reading")
          demo_instr.component_list)[0]?
          = some (new_component demo_lib "test_component" "test_for_reading")
      ∧ (insert_at 0 (new_component demo_lib "test_component" "test_for_reading")
          demo_instr.component_list)[1]?
          = demo_instr.component_list[0]?
      ∧ (insert_at 1 (new_component demo_lib "test_component" "test_for_reading")
          demo_instr.component_list)[0]?
          = demo_instr.component_list[0]?
      ∧ (insert_at 1 (new_component demo_lib "test_component" "test_for_reading")
          demo_instr.component_list)[1]?
          = some (new_component demo_lib "test_component" "test_for_reading")
      ∧ demo_instr.component_list.Sublist
          (insert_at 0 (new_component demo_lib "test_component" "test_for_reading")
            demo_instr.component_list)
      ∧ demo_instr.component_list.Sublist
          (insert_at 1 (new_component demo_lib "test_component" "test_for_reading")
            demo_instr.component_list)) :=
  ⟨(C6_insertion_positions demo_lib demo_instr "test_component" "test_for_reading"
      "first_component" 0 (by decide)).1,
   (C6_insertion_positions demo_lib demo_instr "test_component" "test_for_reading"
      "first_component" 0 (by decide)).2.1,
   (C6_insertion_positions demo_lib demo_instr "test_component" "test_for_reading"
      "first_component" 0 (by decide)).2.2 (by decide)⟩

/-- Claim C7: the command string handed to the system by
run_full_instrument is exactly the mcrun path, "/mcrun -c -n ", the neutron
count, " --mpi=", the mpi count, " -d ", the output folder, a space, the
custom flags, a space, the instrument file, followed by one " key=value"
per parameter; the second and third conjuncts check the two concrete
command lines asserted by the unit tests, including the double space left
by empty custom flags. -/
theorem C7_run_command_grammar (p f d g : String) (m n : Nat)
    (ps : List (String × String)) :
    run_command p f d m n g ps
      = p ++ "/mcrun -c -n " ++ toString n ++ " --mpi=" ++ toString m ++ " -d " ++ d
        ++ " " ++ g ++ " " ++ f
        ++ String.join (ps.map (fun kv => " " ++ kv.1 ++ "=" ++ kv.2))
    ∧ run_command "path" "test_instrument.instr" "test_data_set" 1 1000000 "" []
      = "path/mcrun -c -n 1000000 --mpi=1 -d test_data_set  test_instrument.instr"
    ∧ run_command "path" "test_instrument.instr" "test_data_set" 7 48 "-fo"
        [("A", "2"), ("BC", "car"), ("th", "\"toy\"")]
      = ("path/mcrun -c -n 48 --mpi=7 -d test_data_set -fo test_instrument.instr "
          ++ "A=2 BC=car th=\"toy\"") :=
  ⟨rfl, by decide, by decide⟩

/-- Claim C8: each append method changes only its own code section, setting
it to its former value with the string and a newline appended (without the
newline for the no_new_line variants); the other code sections, the
parameter list, the declare list and the component list are untouched.  The
last conjunct replays the append sequence of the unit test on a fresh
instrument. -/
theorem C8_append_section_frame (s : String) (i : Instrument) :
    ( append_initialize s i).initialize_section = i.initialize_section ++ s ++ "\n"
    ∧ ( append_initialize s i).trace_section = i.trace_section
    ∧ ( append_initialize s i).finally_section = i.finally_section
    ∧ ( append_initialize s i).declare_section = i.declare_section
    ∧ ( append_initialize s i).parameter_list = i.parameter_list
    ∧ ( append_initialize s i).declare_list = i.declare_list
    ∧ ( append_initialize s i).component_list = i.component_list
    ∧ ( append_initialize_no_new_line s i).initialize_section
        = i.initialize_section ++ s
    ∧ ( append_initialize_no_new_line s i).trace_section = i.trace_section
    ∧ ( append_initialize_no_new_line s i).component_list = i.component_list
    ∧ (append_trace s i).trace_section = i.trace_section ++ s ++ "\n"
    ∧ (append_trace s i).initialize_section = i.initialize_section
    ∧ (append_trace s i).finally_section = i.finally_section
    ∧ (append_trace s i).declare_section = i.declare_section
    ∧ (append_trace s i).parameter_list = i.parameter_list
    ∧ (append_trace s i).declare_list = i.declare_list
    ∧ (append_trace s i).component_list = i.component_list
    ∧ (append_trace_no_new_line s i).trace_section = i.trace_section ++ s
    ∧ (append_trace_no_new_line s i).initialize_section = i.initialize_section
    ∧ (append_trace_no_new_line s i).component_list = i.component_list
    ∧ (append_finally s i).finally_section = i.finally_section ++ s ++ "\n"
    ∧ (append_finally s i).initialize_section = i.initialize_section
    ∧ (append_finally s i).trace_section = i.trace_section
    ∧ (append_finally s i).declare_section = i.declare_section
    ∧ (append_finally s i).parameter_list = i.parameter_list
    ∧ (append_finally s i).declare_list = i.declare_list
    ∧ (append_finally s i).component_list = i.component_list
    ∧ (append_finally_no_new_line s i).finally_section = i.finally_section ++ s
    ∧ (append_finally_no_new_line s i).trace_section = i.trace_section
    ∧ (append_finally_no_new_line s i).component_list = i.component_list
    ∧ ( append_initialize "Third line of initialize"
        ( append_initialize "Second line of initialize"
          ( append_initialize "First line of initialize"
            (make_instrument "test_instrument")))).initialize_section
        = ("// Start of initialize for generated test_instrument\n"
            ++ "First line of initialize\n"
            ++ "Second line of initialize\n"
            ++ "Third line of initialize\n")
    ∧ (append_trace "Third line of trace"
        (append_trace "Second line of trace"
          (append_trace "First line of trace"
            (make_instrument "test_instrument")))).trace_section
        = ("// Start of trace section for generated test_instrument\n"
            ++ "First line of trace\n"
            ++ "Second line of trace\n"
            ++ "Third line of trace\n")
    ∧ (append_finally_no_new_line "CD"
        (append_finally_no_new_line "B"
          (append_finally_no_new_line "A"
            (make_instrument "test_instrument")))).finally_section
        = "// Start of finally for generated test_instrument\n" ++ "ABCD" := by
  refine ⟨rfl, rfl, rfl, rfl, rfl, rfl, rfl, rfl, rfl, rfl, rfl, rfl, rfl, rfl, rfl,
    rfl, rfl, rfl, rfl, rfl, rfl, rfl, rfl, rfl, rfl, rfl, rfl, rfl, rfl, rfl,
    ?_, ?_, ?_⟩
  · decide
  · decide
  · decide
